import Mathlib

/-!
Verification development for the nekomimi logging library (Go).

The definitions below are a shallow embedding of the source files:
  * `logger.go` — levels, header formatter, logger and trace logger dispatch,
    derive and the setters;
  * the handler file (`loghnd.go`, current revision with `RegularWriter`,
    `Wrapper`, finalizers, `TinyLogHandlerFunc` and the file accessor).

Modelling conventions:
  * `LogLevel` is `Nat` (Go `uint32`); `DEBUG = 0 … FATAL = 5`; logger.go
    spells the last two `pANIC` / `fATAL` with the same ranks.
  * Variadic `message ...any` arguments are modelled as `List String`;
    `fmt.Sprintln` space-joins them and appends a newline.
  * A `func(io.StringWriter)` writer closure is modelled by the list of
    strings it writes, in order (`Pnt`).
  * Observable behaviour of a handler chain is an event trace (`Event`):
    which optional handler function fields were invoked, with which level
    tag and writer, and which finalizers ran.  Raising the process panic
    signal / calling `sysTerminate` happens only inside finalizers returned
    by `PanicLogFunc` / `FatalLogFunc`, recorded as `panicFinRun` /
    `fatalFinRun` events.
  * Ambient effects (the clock, `fmt.Sprintf`, the call-site and the call
    stack captured by `runtime.Caller` / `runtime.Callers`) are parameters
    gathered in an `Env` record.
  * Go locks (`sync.Locker` fields) only serialize concurrent calls; they
    have no effect on a single sequential call, so the model keeps a
    `hasLock` flag for structural fidelity without semantic content.
-/

/-- Log severity rank, Go type `LogLevel uint32`. -/
abbrev LogLevel := Nat

/-- DEBUG level, rank 0. -/
def DEBUG : LogLevel := 0

/-- INFO level, rank 1. -/
def INFO : LogLevel := 1

/-- WARN level, rank 2. -/
def WARN : LogLevel := 2

/-- ERROR level, rank 3. -/
def ERROR : LogLevel := 3

/-- PANIC level, rank 4 (spelled `pANIC` in logger.go). -/
def PANIC : LogLevel := 4

/-- FATAL level, rank 5 (spelled `fATAL` in logger.go). -/
def FATAL : LogLevel := 5

/-- Go `LogLevel.String()`: name of a level, with an UNKNOWN fallback. -/
def logLevelString : LogLevel → String
  | 0 => "DEBUG"
  | 1 => "INFO"
  | 2 => "WARN"
  | 3 => "ERROR"
  | 4 => "PANIC"
  | 5 => "FATAL"
  | _ => "UNKNOWN"

/-- Go `fmt.Sprintln(message...)`: space-joined parts plus a newline. -/
def sprintln (message : List String) : String :=
  String.intercalate " " message ++ "\n"

/-- A writer closure `func(io.StringWriter)`: the strings it writes, in order. -/
abbrev Pnt := List String

/-- Observable events produced by a handler chain.  The first three record an
invocation of the corresponding optional function field of a `LogHandlerFunc`
(identified by `id`); the two `FinRun` events record that the finalizer
returned by a panic/fatal function ran (raising the process panic signal /
invoking the termination function); `tinyCall` records the single function of
a `TinyLogHandlerFunc` being invoked. -/
inductive Event where
  | regularFuncCall (id : Nat) (level : LogLevel) (pnt : Pnt)
  | panicFuncCall (id : Nat) (pnt : Pnt) (info : String)
  | fatalFuncCall (id : Nat) (pnt : Pnt)
  | panicFinRun (id : Nat)
  | fatalFinRun (id : Nat)
  | tinyCall (id : Nat) (level : LogLevel) (pnt : Pnt)
deriving DecidableEq, Repr

/-- True for events a handler can emit through the `RegularWriter` /
`RegularLogFunc` path: an invocation of a regular log function or of a tiny
handler function.  Panic/fatal function invocations and finalizer runs are
not regular-write events. -/
def Event.isRegularWrite : Event → Bool
  | .regularFuncCall _ _ _ => true
  | .tinyCall _ _ _ => true
  | _ => false

/-- Level tag carried by a regular-write event, if any. -/
def Event.levelTag : Event → Option LogLevel
  | .regularFuncCall _ l _ => some l
  | .tinyCall _ l _ => some l
  | _ => none

/-- True for finalizer events: the process panic signal being raised or the
termination function being invoked after a panic/fatal log. -/
def Event.isFinRun : Event → Bool
  | .panicFinRun _ => true
  | .fatalFinRun _ => true
  | _ => false

/-- Function fields of a `LogHandlerFunc` record (the composable handler).
`id` identifies this handler record in the event trace.  `converter` is the
optional body-formatting converter (receiving the default formatter).
`hasRegular` is whether `RegularLogFunc` is non-nil.  `panicFunc` /
`fatalFunc`: `none` when the field is nil; `some fin` when present, where
`fin` tells whether the function returns a non-nil finalizer. -/
structure HF where
  id : Nat
  hasLock : Bool
  converter : Option ((String → List String → Pnt) → String → List String → Pnt)
  hasRegular : Bool
  panicFunc : Option Bool
  fatalFunc : Option Bool

/-- A log handler value: either a `LogHandlerFunc` record with an optional
wrapped handler (`Wrapper` field, nil modelled as `none`), or a
`TinyLogHandlerFunc` identified by `id`. -/
inductive Handler where
  | func : HF → Option Handler → Handler
  | tiny : Nat → Handler

instance : Inhabited Handler := ⟨.tiny 0⟩

/-- Go `LogHandlerFunc.rawWriteLogFunc`: the default body formatter writes the
header, then the `Sprintln`-joined message. -/
def rawWriteLogFunc (header : String) (message : List String) : Pnt :=
  [header, sprintln message]

/-- Go `LogHandlerFunc.writeLogFunc`: apply the converter when present
(passing the default formatter as `origin`), else the default formatter. -/
def writeLogFunc (f : HF) (header : String) (message : List String) : Pnt :=
  match f.converter with
  | some conv => conv rawWriteLogFunc header message
  | none => rawWriteLogFunc header message

/-- Go `TinyLogHandlerFunc.writeLogFunc`: same shape as the default body
formatter of `LogHandlerFunc`. -/
def tinyWriteLogFunc (header : String) (message : List String) : Pnt :=
  [header, sprintln message]

/-- Events of the handler running its own `RegularLogFunc`, when present. -/
def hfSelfRegular (f : HF) (level : LogLevel) (pnt : Pnt) : List Event :=
  if f.hasRegular then [.regularFuncCall f.id level pnt] else []

/-- Events of the handler running its own `PanicLogFunc` when present, then
the returned finalizer when that is non-nil. -/
def hfSelfPanic (f : HF) (pnt : Pnt) (info : String) : List Event :=
  match f.panicFunc with
  | none => []
  | some fin => .panicFuncCall f.id pnt info :: (if fin then [.panicFinRun f.id] else [])

/-- Events of the handler running its own `FatalLogFunc` when present, then
the returned finalizer when that is non-nil. -/
def hfSelfFatal (f : HF) (pnt : Pnt) : List Event :=
  match f.fatalFunc with
  | none => []
  | some fin => .fatalFuncCall f.id pnt :: (if fin then [.fatalFinRun f.id] else [])

/-- Go `RegularWriter`: delegate the same level and writer to the wrapped
handler first (when non-nil), then run this handler's own regular function.
A tiny handler just invokes its single function. -/
def Handler.RegularWriter : Handler → LogLevel → Pnt → List Event
  | .func f none, level, pnt => hfSelfRegular f level pnt
  | .func f (some w), level, pnt => w.RegularWriter level pnt ++ hfSelfRegular f level pnt
  | .tiny i, level, pnt => [.tinyCall i level pnt]

/-- Go `RegularLog`: format the body once, delegate a `RegularWriter` call to
the wrapped handler first (when non-nil), then run this handler's own regular
function with the same formatted writer. -/
def Handler.RegularLog : Handler → LogLevel → String → List String → List Event
  | .func f none, level, header, message =>
      hfSelfRegular f level (writeLogFunc f header message)
  | .func f (some w), level, header, message =>
      w.RegularWriter level (writeLogFunc f header message)
        ++ hfSelfRegular f level (writeLogFunc f header message)
  | .tiny i, level, header, message =>
      [.tinyCall i level (tinyWriteLogFunc header message)]

/-- Go `PanicLog`: format the body, delegate a down-leveled `RegularWriter`
call tagged PANIC to the wrapped handler (never a recursive `PanicLog`), run
this handler's own panic function, then run the finalizer it returned, if
any.  A tiny handler just invokes its single function tagged PANIC. -/
def Handler.PanicLog : Handler → String → List String → List Event
  | .func f none, header, message =>
      hfSelfPanic f (writeLogFunc f header message) (sprintln message)
  | .func f (some w), header, message =>
      w.RegularWriter PANIC (writeLogFunc f header message)
        ++ hfSelfPanic f (writeLogFunc f header message) (sprintln message)
  | .tiny i, header, message =>
      [.tinyCall i PANIC (tinyWriteLogFunc header message)]

/-- Go `FatalLog`: symmetric to `PanicLog` with the FATAL tag and the fatal
function/finalizer. -/
def Handler.FatalLog : Handler → String → List String → List Event
  | .func f none, header, message =>
      hfSelfFatal f (writeLogFunc f header message)
  | .func f (some w), header, message =>
      w.RegularWriter FATAL (writeLogFunc f header message)
        ++ hfSelfFatal f (writeLogFunc f header message)
  | .tiny i, header, message =>
      [.tinyCall i FATAL (tinyWriteLogFunc header message)]

/-- Go `NewNativeLogHandler`: a locked `LogHandlerFunc` whose regular function
writes to stdout, whose panic function writes to stderr and returns a
finalizer raising the panic signal, and whose fatal function writes to stderr
and returns `sysTerminate`.  Id 0 marks the native handler in traces. -/
def NewNativeLogHandler (warp : Option Handler) : Handler :=
  .func
    { id := 0
      hasLock := true
      converter := none
      hasRegular := true
      panicFunc := some true
      fatalFunc := some true }
    warp

/-- Go package variable `NativeLogHandler`. -/
def NativeLogHandler : Handler := NewNativeLogHandler none

/-- Ambient effects of a log call.  `timeFmt layout` is
`time.Now().Format(layout)`; `sprintf` is `fmt.Sprintf`; `callsite` is the
string produced by `getStackHeader` (a single call-site entry); `stackFrames`
are the per-frame strings collected by `formatStack` before joining. -/
structure Env where
  timeFmt : String → String
  sprintf : String → List String → String
  callsite : String
  stackFrames : List String

/-- Go `formatStack` after frame collection: the frames joined by an indented
newline inside the Stacks banner. -/
def formatStack (frames : List String) : String :=
  " >> Stacks:\n    " ++ String.intercalate "\n    " frames ++ "\n<<<<"

/-- Go struct `traceID`. -/
structure TraceID where
  name : String
  id : String
deriving DecidableEq, Repr

/-- Go `traceID.String` on a possibly nil pointer receiver. -/
def traceIDString : Option TraceID → String
  | none => ""
  | some t => if t.name ≠ "" then "<" ++ t.name ++ ":" ++ t.id ++ ">" else "<" ++ t.id ++ ">"

/-- Go `getHeaderFromatter`: the closure it returns, with the three captured
configuration values explicit.  Header layout:
time, level in brackets, prefix, trace id, call trace, a dash separator.
A full stack dump is attached for PANIC/FATAL regardless of
`levelcalltrace`; otherwise the single call-site entry is attached when the
level reaches `levelcalltrace`.  The Go `tbskip` argument only selects which
runtime frames appear and is absorbed into `Env`. -/
def getHeaderFromatter (env : Env) (timefmt pfx : String) (levelcalltrace : LogLevel)
    (level : LogLevel) (tid : Option TraceID) : String :=
  let stackInfo :=
    if PANIC ≤ level then formatStack env.stackFrames
    else if levelcalltrace ≤ level then env.callsite
    else ""
  env.timeFmt timefmt ++ " [" ++ logLevelString level ++ "], "
    ++ pfx ++ traceIDString tid ++ stackInfo ++ " - "

/-- Go struct `logger`.  `level`, `levelct`, `pfx` (Go `prefix`) and
`timefmt` are the plain fields; `hdrTimefmt`, `hdrPfx` and `hdrLevelct` are
the three values captured by the cached `fmtHeader` closure, which Go
rebuilds as a whole (`getHeaderFromatter`) rather than deriving from the
plain fields at call time. -/
structure LoggerState where
  logHandler : Handler
  level : LogLevel
  levelct : LogLevel
  pfx : String
  timefmt : String
  hdrTimefmt : String
  hdrPfx : String
  hdrLevelct : LogLevel
deriving Inhabited

/-- Go struct `LogConfig`; `Handler` is a nilable interface value. -/
structure LogConfig where
  Handler : Option Handler
  Level : LogLevel
  LevelWithTrace : LogLevel
  TimeFormat : String

/-- Go `New`: defaults for time format, handler and name; the cached header
closure captures `config.LevelWithTrace`, but the `levelct` field itself is
left at its Go zero value 0 (the composite literal in `New` does not set
it). -/
def New (name : String) (config : LogConfig) : LoggerState :=
  let timefmt := if config.TimeFormat = "" then "2006-01-02 15:04:05.000" else config.TimeFormat
  let hander := match config.Handler with
    | none => NativeLogHandler
    | some h => h
  let name2 := if name = "" then "*" else name
  { logHandler := hander
    level := config.Level
    levelct := 0
    pfx := name2
    timefmt := timefmt
    hdrTimefmt := timefmt
    hdrPfx := name2
    hdrLevelct := config.LevelWithTrace }

/-- The cached `fmtHeader` closure of a logger, applied. -/
def LoggerState.headerOf (st : LoggerState) (env : Env) (level : LogLevel)
    (tid : Option TraceID) : String :=
  getHeaderFromatter env st.hdrTimefmt st.hdrPfx st.hdrLevelct level tid

/-- Go `logger.outputRegularLog`: build the header with a nil trace id and
hand (level, header, message) to the active handler. -/
def LoggerState.outputRegularLog (st : LoggerState) (env : Env) (level : LogLevel)
    (message : List String) : List Event :=
  Handler.RegularLog st.logHandler level (st.headerOf env level none) message

/-- Go `logger.outputPanicLog`: header at PANIC, then `PanicLog`. -/
def LoggerState.outputPanicLog (st : LoggerState) (env : Env)
    (message : List String) : List Event :=
  Handler.PanicLog st.logHandler (st.headerOf env PANIC none) message

/-- Go `logger.outputFatalLog`: header at FATAL, then `FatalLog`. -/
def LoggerState.outputFatalLog (st : LoggerState) (env : Env)
    (message : List String) : List Event :=
  Handler.FatalLog st.logHandler (st.headerOf env FATAL none) message

/-- Go `logger.Dbg`. -/
def LoggerState.Dbg (st : LoggerState) (env : Env) (message : List String) : List Event :=
  if st.level ≤ DEBUG then st.outputRegularLog env DEBUG message else []

/-- Go `logger.Dbgf`. -/
def LoggerState.Dbgf (st : LoggerState) (env : Env) (format : String)
    (args : List String) : List Event :=
  if st.level ≤ DEBUG then st.outputRegularLog env DEBUG [env.sprintf format args] else []

/-- Go `logger.DbgP`: `none` models the nil deferred callable. -/
def LoggerState.DbgP (st : LoggerState) (env : Env) :
    Option (List String → List Event) :=
  if st.level ≤ DEBUG then some (fun message => st.outputRegularLog env DEBUG message) else none

/-- Go `logger.Inf`. -/
def LoggerState.Inf (st : LoggerState) (env : Env) (message : List String) : List Event :=
  if st.level ≤ INFO then st.outputRegularLog env INFO message else []

/-- Go `logger.Inff`. -/
def LoggerState.Inff (st : LoggerState) (env : Env) (format : String)
    (args : List String) : List Event :=
  if st.level ≤ INFO then st.outputRegularLog env INFO [env.sprintf format args] else []

/-- Go `logger.InfP`. -/
def LoggerState.InfP (st : LoggerState) (env : Env) :
    Option (List String → List Event) :=
  if st.level ≤ INFO then some (fun message => st.outputRegularLog env INFO message) else none

/-- Go `logger.War`. -/
def LoggerState.War (st : LoggerState) (env : Env) (message : List String) : List Event :=
  if st.level ≤ WARN then st.outputRegularLog env WARN message else []

/-- Go `logger.Warf`. -/
def LoggerState.Warf (st : LoggerState) (env : Env) (format : String)
    (args : List String) : List Event :=
  if st.level ≤ WARN then st.outputRegularLog env WARN [env.sprintf format args] else []

/-- Go `logger.WarP`. -/
def LoggerState.WarP (st : LoggerState) (env : Env) :
    Option (List String → List Event) :=
  if st.level ≤ WARN then some (fun message => st.outputRegularLog env WARN message) else none

/-- Go `logger.Err`. -/
def LoggerState.Err (st : LoggerState) (env : Env) (message : List String) : List Event :=
  if st.level ≤ ERROR then st.outputRegularLog env ERROR message else []

/-- Go `logger.Errf`. -/
def LoggerState.Errf (st : LoggerState) (env : Env) (format : String)
    (args : List String) : List Event :=
  if st.level ≤ ERROR then st.outputRegularLog env ERROR [env.sprintf format args] else []

/-- Go `logger.ErrP`. -/
def LoggerState.ErrP (st : LoggerState) (env : Env) :
    Option (List String → List Event) :=
  if st.level ≤ ERROR then some (fun message => st.outputRegularLog env ERROR message) else none

/-- Go `logger.Panic`: no threshold check. -/
def LoggerState.Panic (st : LoggerState) (env : Env) (message : List String) : List Event :=
  st.outputPanicLog env message

/-- Go `logger.Panicf`: no threshold check. -/
def LoggerState.Panicf (st : LoggerState) (env : Env) (format : String)
    (args : List String) : List Event :=
  st.outputPanicLog env [env.sprintf format args]

/-- Go `logger.Fatal`: no threshold check. -/
def LoggerState.Fatal (st : LoggerState) (env : Env) (message : List String) : List Event :=
  st.outputFatalLog env message

/-- Go `logger.Fatalf`: no threshold check. -/
def LoggerState.Fatalf (st : LoggerState) (env : Env) (format : String)
    (args : List String) : List Event :=
  st.outputFatalLog env [env.sprintf format args]

/-- Go `logger.Derive`: extend the prefix (unchanged when the suffix is
empty), copy handler, level and time format, and bake the parent `levelct`
FIELD into the new header closure.  As in `New`, the composite literal does
not set the new `levelct` field, which is therefore the Go zero value 0. -/
def LoggerState.Derive (st : LoggerState) (pfx2 : String) : LoggerState :=
  let newPrefix := if pfx2 = "" then st.pfx else st.pfx ++ "." ++ pfx2
  { logHandler := st.logHandler
    level := st.level
    levelct := 0
    pfx := newPrefix
    timefmt := st.timefmt
    hdrTimefmt := st.timefmt
    hdrPfx := newPrefix
    hdrLevelct := st.levelct }

/-- Go `logger.SetLevel` (atomic store of the level field only). -/
def LoggerState.SetLevel (st : LoggerState) (level : LogLevel) : LoggerState :=
  { st with level := level }

/-- Go `logger.SetCallTraceLevel`: set the field and rebuild the header
closure from the current time format, prefix and the new level. -/
def LoggerState.SetCallTraceLevel (st : LoggerState) (level : LogLevel) : LoggerState :=
  { st with levelct := level, hdrTimefmt := st.timefmt, hdrPfx := st.pfx, hdrLevelct := level }

/-- Go `logger.SetTimeFormat`: set the field and rebuild the header closure
from the new time format, the prefix and the `levelct` field. -/
def LoggerState.SetTimeFormat (st : LoggerState) (format : String) : LoggerState :=
  { st with timefmt := format, hdrTimefmt := format, hdrPfx := st.pfx, hdrLevelct := st.levelct }

/-- Go `logger.SetLogHandler`. -/
def LoggerState.SetLogHandler (st : LoggerState) (handler : Handler) : LoggerState :=
  { st with logHandler := handler }

/-- Go `logger.WrapLogHandler`: replace the handler with the wrapped result;
a nil result resets to `NativeLogHandler`. -/
def LoggerState.WrapLogHandler (st : LoggerState)
    (wrapper : Handler → Option Handler) : LoggerState :=
  { st with logHandler :=
      match wrapper st.logHandler with
      | some h => h
      | none => NativeLogHandler }

/-- Go struct `traceLogger`: a back reference to the parent logger (modelled
by passing the parent state at call time) plus an immutable trace id. -/
structure TraceLoggerState where
  parent : LoggerState
  tid : TraceID

/-- Go `logger.Trace`: bind a fresh trace identity (uuid generation is
ambient, so the fresh id is a parameter). -/
def LoggerState.Trace (st : LoggerState) (name : String) (freshId : String) :
    TraceLoggerState :=
  { parent := st, tid := { name := name, id := freshId } }

/-- Go `traceLogger.regularLog`: parent header closure with this trace id,
then the parent handler. -/
def TraceLoggerState.regularLog (tl : TraceLoggerState) (env : Env) (level : LogLevel)
    (message : List String) : List Event :=
  Handler.RegularLog tl.parent.logHandler level
    (tl.parent.headerOf env level (some tl.tid)) message

/-- Go `traceLogger.Dbg`. -/
def TraceLoggerState.Dbg (tl : TraceLoggerState) (env : Env) (message : List String) : List Event :=
  if tl.parent.level ≤ DEBUG then tl.regularLog env DEBUG message else []

/-- Go `traceLogger.Dbgf`. -/
def TraceLoggerState.Dbgf (tl : TraceLoggerState) (env : Env) (format : String)
    (args : List String) : List Event :=
  if tl.parent.level ≤ DEBUG then tl.regularLog env DEBUG [env.sprintf format args] else []

/-- Go `traceLogger.DbgP`. -/
def TraceLoggerState.DbgP (tl : TraceLoggerState) (env : Env) :
    Option (List String → List Event) :=
  if tl.parent.level ≤ DEBUG then some (fun message => tl.regularLog env DEBUG message) else none

/-- Go `traceLogger.Inf`. -/
def TraceLoggerState.Inf (tl : TraceLoggerState) (env : Env) (message : List String) : List Event :=
  if tl.parent.level ≤ INFO then tl.regularLog env INFO message else []

/-- Go `traceLogger.Inff`. -/
def TraceLoggerState.Inff (tl : TraceLoggerState) (env : Env) (format : String)
    (args : List String) : List Event :=
  if tl.parent.level ≤ INFO then tl.regularLog env INFO [env.sprintf format args] else []

/-- Go `traceLogger.InfP`. -/
def TraceLoggerState.InfP (tl : TraceLoggerState) (env : Env) :
    Option (List String → List Event) :=
  if tl.parent.level ≤ INFO then some (fun message => tl.regularLog env INFO message) else none

/-- Go `traceLogger.War`. -/
def TraceLoggerState.War (tl : TraceLoggerState) (env : Env) (message : List String) : List Event :=
  if tl.parent.level ≤ WARN then tl.regularLog env WARN message else []

/-- Go `traceLogger.Warf`. -/
def TraceLoggerState.Warf (tl : TraceLoggerState) (env : Env) (format : String)
    (args : List String) : List Event :=
  if tl.parent.level ≤ WARN then tl.regularLog env WARN [env.sprintf format args] else []

/-- Go `traceLogger.WarP`. -/
def TraceLoggerState.WarP (tl : TraceLoggerState) (env : Env) :
    Option (List String → List Event) :=
  if tl.parent.level ≤ WARN then some (fun message => tl.regularLog env WARN message) else none

/-- Go `traceLogger.Err`. -/
def TraceLoggerState.Err (tl : TraceLoggerState) (env : Env) (message : List String) : List Event :=
  if tl.parent.level ≤ ERROR then tl.regularLog env ERROR message else []

/-- Go `traceLogger.Errf`. -/
def TraceLoggerState.Errf (tl : TraceLoggerState) (env : Env) (format : String)
    (args : List String) : List Event :=
  if tl.parent.level ≤ ERROR then tl.regularLog env ERROR [env.sprintf format args] else []

/-- Go `traceLogger.ErrP`. -/
def TraceLoggerState.ErrP (tl : TraceLoggerState) (env : Env) :
    Option (List String → List Event) :=
  if tl.parent.level ≤ ERROR then some (fun message => tl.regularLog env ERROR message) else none

/-- A heap of logger objects: Go loggers are pointers, so aliasing questions
(Derive versus mutation through setters) are asked on a store of logger
records addressed by index. -/
abbrev LoggerStore := List LoggerState

/-- Go `l.Derive(pfx)` on the heap: allocate a fresh logger record built by
`LoggerState.Derive` from the record at `i` and return its address. -/
def storeDerive (s : LoggerStore) (i : Nat) (pfx2 : String) : LoggerStore × Nat :=
  (s ++ [LoggerState.Derive (s.getD i default) pfx2], s.length)

/-- Go `l.SetLevel(v)` on the heap: update only the record at `i`. -/
def storeSetLevel (s : LoggerStore) (i : Nat) (v : LogLevel) : LoggerStore :=
  s.set i (LoggerState.SetLevel (s.getD i default) v)

/-- Go `l.SetCallTraceLevel(v)` on the heap: update only the record at `i`. -/
def storeSetCallTraceLevel (s : LoggerStore) (i : Nat) (v : LogLevel) : LoggerStore :=
  s.set i (LoggerState.SetCallTraceLevel (s.getD i default) v)

/-- File sink state behind `NewFileAccessorLogHandler`: whether the file is
still open (`fp != nil`), the writer closures applied to the file so far,
and the write counter used by the periodic flush. -/
structure FileSink where
  fileOpen : Bool
  contents : List Pnt
  countwrt : Nat
deriving DecidableEq, Repr

/-- Go `NewFileAccessorLogHandler` construction: `os.OpenFile` is ambient, so
its result is a parameter; an open error is returned to the caller as is and
a successful open yields the initial sink state (open file, nothing written). -/
def NewFileAccessorLogHandler (openResult : Except String Unit) :
    Except String FileSink :=
  match openResult with
  | .error e => .error e
  | .ok _ => .ok { fileOpen := true, contents := [], countwrt := 0 }

/-- Body of the tiny handler function created by `NewFileAccessorLogHandler`:
under the read lock, a nil file pointer drops the write silently; otherwise
the writer runs against the file and the write counter is bumped. -/
def FileSink.handlerWrite (st : FileSink) (_level : LogLevel) (pnt : Pnt) : FileSink :=
  if st.fileOpen then
    { st with contents := st.contents ++ [pnt], countwrt := st.countwrt + 1 }
  else st

/-- The cancellation branch of the file holder goroutine: close the file and
set the pointer to nil. -/
def FileSink.close (st : FileSink) : FileSink :=
  { st with fileOpen := false }

/-- Concrete ambient effects used by witnesses and counterexamples: a fixed
clock rendering, a trivial sprintf, one call-site entry and one stack frame. -/
def envC : Env :=
  { timeFmt := fun _ => "T"
    sprintf := fun format args => format ++ String.intercalate " " args
    callsite := " f.go:1(fn)"
    stackFrames := [" a.go:2(g)"] }

/-- Concrete function fields for an inner chained handler: only a regular
function. -/
def hfB : HF :=
  { id := 2, hasLock := false, converter := none, hasRegular := true
    panicFunc := some false, fatalFunc := some false }

/-- Concrete function fields for an outer chained handler: all three
functions, both finalizers returned. -/
def hfA : HF :=
  { id := 1, hasLock := false, converter := none, hasRegular := true
    panicFunc := some true, fatalFunc := some true }

/-- Concrete inner handler: `hfB` wrapping a tiny handler. -/
def chainB : Handler := .func hfB (some (.tiny 9))

/-- Concrete two-level chain: `hfA` wrapping `chainB`. -/
def chainA : Handler := .func hfA (some chainB)

/-- Concrete logger whose threshold 4 disables all four regular levels,
bound to a tiny handler. -/
def stDisabled : LoggerState :=
  New "W" { Handler := some (.tiny 7), Level := 4, LevelWithTrace := 0, TimeFormat := "" }

/-- Config with `LevelWithTrace` left at its zero value, as when the option
is omitted. -/
def cfgNoCT : LogConfig :=
  { Handler := some (.tiny 7), Level := 0, LevelWithTrace := 0, TimeFormat := "" }

/-- Config with an explicit call-trace threshold ERROR given to `New`. -/
def cfgCT3 : LogConfig :=
  { Handler := some (.tiny 7), Level := 0, LevelWithTrace := 3, TimeFormat := "" }

/-- Every event a handler chain emits through `RegularWriter`, at any depth,
is a regular-write event carrying exactly the level tag that was passed in. -/
theorem regularWriter_events : ∀ (h : Handler) (level : LogLevel) (pnt : Pnt),
    ∀ e ∈ Handler.RegularWriter h level pnt,
      e.isRegularWrite = true ∧ e.levelTag = some level
  | .func f none, level, pnt => by
    intro e he
    simp only [Handler.RegularWriter, hfSelfRegular] at he
    split at he <;> simp_all [Event.isRegularWrite, Event.levelTag]
  | .func f (some w), level, pnt => by
    intro e he
    simp only [Handler.RegularWriter, List.mem_append] at he
    rcases he with h1 | h1
    · exact regularWriter_events w level pnt e h1
    · simp only [hfSelfRegular] at h1
      split at h1 <;> simp_all [Event.isRegularWrite, Event.levelTag]
  | .tiny i, level, pnt => by
    intro e he
    simp_all [Handler.RegularWriter, Event.isRegularWrite, Event.levelTag]

/-- C1: for a composable handler A (fields `f`) wrapping B, every call style
produces the wrapped handler B observable effects strictly before A own
effects (the trace is the B part followed by the A part); for `PanicLog` and
`FatalLog` the delegation to B is a `RegularWriter` call tagged PANIC resp.
FATAL, and whatever B is, every event B contributes is a regular-write event,
so B never executes a panic or fatal function or finalizer of its own. -/
theorem C1_chain_order (f : HF) (B : Handler) (env : Env) (st : LoggerState)
    (level : LogLevel) (header : String) (message : List String) (pnt : Pnt) :
    Handler.RegularLog (.func f (some B)) level header message
      = B.RegularWriter level (writeLogFunc f header message)
        ++ hfSelfRegular f level (writeLogFunc f header message) ∧
    Handler.RegularWriter (.func f (some B)) level pnt
      = B.RegularWriter level pnt ++ hfSelfRegular f level pnt ∧
    Handler.PanicLog (.func f (some B)) header message
      = B.RegularWriter PANIC (writeLogFunc f header message)
        ++ hfSelfPanic f (writeLogFunc f header message) (sprintln message) ∧
    Handler.FatalLog (.func f (some B)) header message
      = B.RegularWriter FATAL (writeLogFunc f header message)
        ++ hfSelfFatal f (writeLogFunc f header message) ∧
    (∀ (lv : LogLevel) (p : Pnt), ∀ e ∈ Handler.RegularWriter B lv p,
      Event.isRegularWrite e = true) ∧
    (LoggerState.SetLogHandler st (.func f (some B))).Panic env message
      = B.RegularWriter PANIC
          (writeLogFunc f
            ((LoggerState.SetLogHandler st (.func f (some B))).headerOf env PANIC none) message)
        ++ hfSelfPanic f
            (writeLogFunc f
              ((LoggerState.SetLogHandler st (.func f (some B))).headerOf env PANIC none) message)
            (sprintln message) := by
  refine ⟨rfl, rfl, rfl, rfl, ?_, rfl⟩
  intro lv p e he
  exact (regularWriter_events B lv p e he).1

/-- C1 witness: in the concrete two-level chain, the innermost tiny sink
observes the write, and its event is a regular-write event. -/
theorem C1_chain_order_witness :
    Event.isRegularWrite (Event.tinyCall 9 INFO ["p"]) = true :=
  (C1_chain_order hfA chainB envC stDisabled INFO "h" ["m"] ["p"]).2.2.2.2.1
    INFO ["p"] (Event.tinyCall 9 INFO ["p"]) (by decide)

/-- C9: the level tag handed to `RegularWriter` propagates unchanged through
every delegation step of an arbitrarily deep chain, and every event so
produced is a regular-write event; consequently a `PanicLog` (resp.
`FatalLog`, resp. `RegularLog` at level L) at the top of a chain gives every
wrapped handler at every depth a regular write tagged PANIC (resp. FATAL,
resp. L) and nothing else. -/
theorem C9_level_propagation :
    (∀ (h : Handler) (level : LogLevel) (pnt : Pnt),
      ∀ e ∈ Handler.RegularWriter h level pnt,
        Event.isRegularWrite e = true ∧ Event.levelTag e = some level) ∧
    (∀ (f : HF) (B : Handler) (header : String) (message : List String),
      ∀ e ∈ Handler.PanicLog (Handler.func f (some B)) header message,
        e ∈ hfSelfPanic f (writeLogFunc f header message) (sprintln message)
          ∨ (Event.isRegularWrite e = true ∧ Event.levelTag e = some PANIC)) ∧
    (∀ (f : HF) (B : Handler) (header : String) (message : List String),
      ∀ e ∈ Handler.FatalLog (Handler.func f (some B)) header message,
        e ∈ hfSelfFatal f (writeLogFunc f header message)
          ∨ (Event.isRegularWrite e = true ∧ Event.levelTag e = some FATAL)) ∧
    (∀ (f : HF) (B : Handler) (level : LogLevel) (header : String) (message : List String),
      ∀ e ∈ Handler.RegularLog (Handler.func f (some B)) level header message,
        e ∈ hfSelfRegular f level (writeLogFunc f header message)
          ∨ (Event.isRegularWrite e = true ∧ Event.levelTag e = some level)) := by
  refine ⟨regularWriter_events, ?_, ?_, ?_⟩
  · intro f B header message e he
    simp only [Handler.PanicLog, List.mem_append] at he
    rcases he with h1 | h1
    · exact Or.inr (regularWriter_events B PANIC _ e h1)
    · exact Or.inl h1
  · intro f B header message e he
    simp only [Handler.FatalLog, List.mem_append] at he
    rcases he with h1 | h1
    · exact Or.inr (regularWriter_events B FATAL _ e h1)
    · exact Or.inl h1
  · intro f B level header message e he
    simp only [Handler.RegularLog, List.mem_append] at he
    rcases he with h1 | h1
    · exact Or.inr (regularWriter_events B level _ e h1)
    · exact Or.inl h1

/-- C9 witness: in the concrete depth-three chain, the event the innermost
tiny sink emits during a top-level `PanicLog` carries the PANIC tag. -/
theorem C9_level_propagation_witness :
    Event.isRegularWrite (Event.tinyCall 9 PANIC ["HDR", "m\n"]) = true ∧
    Event.levelTag (Event.tinyCall 9 PANIC ["HDR", "m\n"]) = some PANIC :=
  C9_level_propagation.1 chainB PANIC ["HDR", "m\n"]
    (Event.tinyCall 9 PANIC ["HDR", "m\n"]) (by decide)

/-- C10: a `TinyLogHandlerFunc` used as the active handler writes the
formatted record tagged PANIC resp. FATAL on `PanicLog` / `FatalLog`, but its
trace never contains a finalizer run — there is no finalizer mechanism, so no
process panic signal is raised and the termination function is never invoked,
and the call returns normally. -/
theorem C10_tiny_no_finalizer (i : Nat) (header : String) (message : List String)
    (env : Env) (st : LoggerState) :
    Handler.PanicLog (.tiny i) header message
      = [.tinyCall i PANIC [header, sprintln message]] ∧
    Handler.FatalLog (.tiny i) header message
      = [.tinyCall i FATAL [header, sprintln message]] ∧
    (∀ e ∈ Handler.PanicLog (.tiny i) header message, e.isFinRun = false) ∧
    (∀ e ∈ Handler.FatalLog (.tiny i) header message, e.isFinRun = false) ∧
    (st.logHandler = .tiny i →
      st.Panic env message = [.tinyCall i PANIC [st.headerOf env PANIC none, sprintln message]] ∧
      st.Fatal env message = [.tinyCall i FATAL [st.headerOf env FATAL none, sprintln message]] ∧
      (∀ e ∈ st.Panic env message ++ st.Fatal env message, e.isFinRun = false)) := by
  refine ⟨rfl, rfl, ?_, ?_, ?_⟩
  · intro e he
    simp only [Handler.PanicLog, List.mem_singleton] at he
    simp [he, Event.isFinRun]
  · intro e he
    simp only [Handler.FatalLog, List.mem_singleton] at he
    simp [he, Event.isFinRun]
  · intro hh
    refine ⟨?_, ?_, ?_⟩
    · simp [LoggerState.Panic, LoggerState.outputPanicLog, hh, Handler.PanicLog, tinyWriteLogFunc]
    · simp [LoggerState.Fatal, LoggerState.outputFatalLog, hh, Handler.FatalLog, tinyWriteLogFunc]
    · intro e he
      simp only [LoggerState.Panic, LoggerState.Fatal, LoggerState.outputPanicLog,
        LoggerState.outputFatalLog, hh, Handler.PanicLog, Handler.FatalLog,
        List.mem_append, List.mem_singleton] at he
      rcases he with h1 | h1 <;> simp [h1, Event.isFinRun]

/-- C10 witness: concrete tiny handler, concrete call: the full traces and
the absence of finalizer events, obtained from the theorem at the disabled
logger fixture whose active handler is the tiny sink 7. -/
theorem C10_tiny_no_finalizer_witness :
    stDisabled.Panic envC ["m"]
      = [.tinyCall 7 PANIC [stDisabled.headerOf envC PANIC none, "m\n"]] ∧
    stDisabled.Fatal envC ["m"]
      = [.tinyCall 7 FATAL [stDisabled.headerOf envC FATAL none, "m\n"]] := by
  have h := (C10_tiny_no_finalizer 7 "h" ["m"] envC stDisabled).2.2.2.2 (by rfl)
  exact ⟨h.1, h.2.1⟩

/-- C2: at every regular level strictly below the configured threshold, all
three call styles on the logger and on a trace logger bound to it produce an
empty event trace, and the deferred accessors return the nil callable. -/
theorem C2_disabled_noop (env : Env) (st : LoggerState) (tid : TraceID)
    (message : List String) (format : String) (args : List String) :
    (DEBUG < st.level →
      st.Dbg env message = [] ∧ st.Dbgf env format args = [] ∧ st.DbgP env = none ∧
      TraceLoggerState.Dbg ⟨st, tid⟩ env message = [] ∧
      TraceLoggerState.Dbgf ⟨st, tid⟩ env format args = [] ∧
      TraceLoggerState.DbgP ⟨st, tid⟩ env = none) ∧
    (INFO < st.level →
      st.Inf env message = [] ∧ st.Inff env format args = [] ∧ st.InfP env = none ∧
      TraceLoggerState.Inf ⟨st, tid⟩ env message = [] ∧
      TraceLoggerState.Inff ⟨st, tid⟩ env format args = [] ∧
      TraceLoggerState.InfP ⟨st, tid⟩ env = none) ∧
    (WARN < st.level →
      st.War env message = [] ∧ st.Warf env format args = [] ∧ st.WarP env = none ∧
      TraceLoggerState.War ⟨st, tid⟩ env message = [] ∧
      TraceLoggerState.Warf ⟨st, tid⟩ env format args = [] ∧
      TraceLoggerState.WarP ⟨st, tid⟩ env = none) ∧
    (ERROR < st.level →
      st.Err env message = [] ∧ st.Errf env format args = [] ∧ st.ErrP env = none ∧
      TraceLoggerState.Err ⟨st, tid⟩ env message = [] ∧
      TraceLoggerState.Errf ⟨st, tid⟩ env format args = [] ∧
      TraceLoggerState.ErrP ⟨st, tid⟩ env = none) := by
  refine ⟨fun h => ?_, fun h => ?_, fun h => ?_, fun h => ?_⟩ <;>
  · refine ⟨?_, ?_, ?_, ?_, ?_, ?_⟩ <;>
    · simp only [LoggerState.Dbg, LoggerState.Dbgf, LoggerState.DbgP, LoggerState.Inf,
        LoggerState.Inff, LoggerState.InfP, LoggerState.War, LoggerState.Warf,
        LoggerState.WarP, LoggerState.Err, LoggerState.Errf, LoggerState.ErrP,
        TraceLoggerState.Dbg, TraceLoggerState.Dbgf, TraceLoggerState.DbgP,
        TraceLoggerState.Inf, TraceLoggerState.Inff, TraceLoggerState.InfP,
        TraceLoggerState.War, TraceLoggerState.Warf, TraceLoggerState.WarP,
        TraceLoggerState.Err, TraceLoggerState.Errf, TraceLoggerState.ErrP]
      rw [if_neg (Nat.not_le.mpr h)]

/-- C2 witness: the fixture logger has threshold 4, so all four regular
levels are strictly below it; the simple style yields no events and the
deferred accessors yield the nil callable, also through a trace logger. -/
theorem C2_disabled_noop_witness :
    stDisabled.Dbg envC ["m"] = [] ∧ stDisabled.DbgP envC = none ∧
    stDisabled.Inf envC ["m"] = [] ∧ stDisabled.InfP envC = none ∧
    stDisabled.War envC ["m"] = [] ∧ stDisabled.WarP envC = none ∧
    stDisabled.Err envC ["m"] = [] ∧ stDisabled.ErrP envC = none ∧
    TraceLoggerState.Err ⟨stDisabled, ⟨"t", "i"⟩⟩ envC ["m"] = [] := by
  have h := C2_disabled_noop envC stDisabled ⟨"t", "i"⟩ ["m"] "f" ["a"]
  have h0 := h.1 (by decide)
  have h1 := h.2.1 (by decide)
  have h2 := h.2.2.1 (by decide)
  have h3 := h.2.2.2 (by decide)
  exact ⟨h0.1, h0.2.2.1, h1.1, h1.2.2.1, h2.1, h2.2.2.1, h3.1, h3.2.2.1, h3.2.2.2.1⟩

/-- C3: Panic/Panicf always invoke `PanicLog` and Fatal/Fatalf always invoke
`FatalLog` on the active handler, for every state, so in particular for every
threshold value (the trace is invariant under `SetLevel`); the header is
built at PANIC resp. FATAL and always carries the full stack dump, whatever
the call-trace threshold captured in the header closure is. -/
theorem C3_panic_fatal_unconditional (env : Env) (st : LoggerState)
    (message : List String) (format : String) (args : List String) (v : LogLevel) :
    st.Panic env message
      = Handler.PanicLog st.logHandler (st.headerOf env PANIC none) message ∧
    st.Panicf env format args
      = Handler.PanicLog st.logHandler (st.headerOf env PANIC none) [env.sprintf format args] ∧
    st.Fatal env message
      = Handler.FatalLog st.logHandler (st.headerOf env FATAL none) message ∧
    st.Fatalf env format args
      = Handler.FatalLog st.logHandler (st.headerOf env FATAL none) [env.sprintf format args] ∧
    (st.SetLevel v).Panic env message = st.Panic env message ∧
    (st.SetLevel v).Fatal env message = st.Fatal env message ∧
    st.headerOf env PANIC none
      = env.timeFmt st.hdrTimefmt ++ " [" ++ "PANIC" ++ "], " ++ st.hdrPfx ++ ""
        ++ formatStack env.stackFrames ++ " - " ∧
    st.headerOf env FATAL none
      = env.timeFmt st.hdrTimefmt ++ " [" ++ "FATAL" ++ "], " ++ st.hdrPfx ++ ""
        ++ formatStack env.stackFrames ++ " - " :=
  ⟨rfl, rfl, rfl, rfl, rfl, rfl, rfl, rfl⟩

/-- C5: the header is the positional concatenation of timestamp, bracketed
level name, prefix, trace suffix, call-trace info and the dash separator; the
trace suffix renders with the name and id, with only the id when the name is
empty, and empty with no trace; and with prefix TestPrefix, no trace and a
call-trace threshold above WARN, an INFO header ends exactly in the expected
text. -/
theorem C5_header_positional (env : Env) (tf p : String) (lct lvl : LogLevel)
    (tid : Option TraceID) (n idstr : String) :
    getHeaderFromatter env tf p lct lvl tid
      = env.timeFmt tf ++ " [" ++ logLevelString lvl ++ "], " ++ p ++ traceIDString tid
        ++ (if PANIC ≤ lvl then formatStack env.stackFrames
            else if lct ≤ lvl then env.callsite else "") ++ " - " ∧
    (n ≠ "" → traceIDString (some { name := n, id := idstr })
        = "<" ++ n ++ ":" ++ idstr ++ ">") ∧
    traceIDString (some { name := "", id := idstr }) = "<" ++ idstr ++ ">" ∧
    traceIDString none = "" ∧
    (WARN < lct → getHeaderFromatter env tf "TestPrefix" lct INFO none
        = env.timeFmt tf ++ " [INFO], TestPrefix - ") := by
  refine ⟨rfl, ?_, by simp [traceIDString], rfl, ?_⟩
  · intro hn
    simp [traceIDString, hn]
  · intro h
    have h2 : ¬ (lct ≤ INFO) :=
      Nat.not_le.mpr (Nat.lt_of_lt_of_le (by decide) (Nat.le_of_lt h))
    simp only [getHeaderFromatter]
    rw [if_neg (by decide), if_neg h2]
    simp only [String.append_assoc]
    congr 1

/-- C5 witness: concrete trace identity and concrete INFO header with
call-trace threshold ERROR, which is above WARN. -/
theorem C5_header_positional_witness :
    traceIDString (some { name := "TR", id := "42" }) = "<" ++ "TR" ++ ":" ++ "42" ++ ">" ∧
    getHeaderFromatter envC "x" "TestPrefix" ERROR INFO none
      = envC.timeFmt "x" ++ " [INFO], TestPrefix - " := by
  have h := C5_header_positional envC "x" "TestPrefix" ERROR INFO none "TR" "42"
  exact ⟨h.2.1 (by decide), h.2.2.2.2 (by decide)⟩

/-- C7: wrapping with a transform returning the nil handler resets the active
handler to the default native stdio handler (the logger never keeps a null
handler), and wrapping with the identity transform leaves the state, hence
the active handler reference, unchanged. -/
theorem C7_wrap_handler (st : LoggerState) :
    st.WrapLogHandler (fun _ => none) = st.SetLogHandler NativeLogHandler ∧
    st.WrapLogHandler (fun h => some h) = st :=
  ⟨rfl, rfl⟩

/-- C8: file sink construction propagates the open error exactly when the
append-create open fails and otherwise yields the fresh open sink; once the
file has been closed (pointer nil), every write attempt through the handler
function leaves the sink unchanged — nothing is written and no error is
produced. -/
theorem C8_file_sink (emsg : String) (st : FileSink) (level : LogLevel) (pnt : Pnt) :
    NewFileAccessorLogHandler (.error emsg) = .error emsg ∧
    NewFileAccessorLogHandler (.ok ())
      = .ok { fileOpen := true, contents := [], countwrt := 0 } ∧
    (st.fileOpen = false → st.handlerWrite level pnt = st) ∧
    (st.close).handlerWrite level pnt = st.close := by
  refine ⟨rfl, rfl, ?_, ?_⟩
  · intro h
    simp [FileSink.handlerWrite, h]
  · simp [FileSink.handlerWrite, FileSink.close]

/-- C8 witness: a concrete closed sink drops a concrete write unchanged. -/
theorem C8_file_sink_witness :
    FileSink.handlerWrite { fileOpen := false, contents := [], countwrt := 0 } DEBUG ["x"]
      = { fileOpen := false, contents := [], countwrt := 0 } :=
  (C8_file_sink "e" { fileOpen := false, contents := [], countwrt := 0 } DEBUG ["x"]).2.2.1 rfl

/-- C4 counterexample: with `LevelWithTrace` omitted (its zero value), a
DEBUG call on the fresh logger renders a header that contains the call-site
entry — the default call-trace threshold is DEBUG, not never. -/
theorem C4_counterexample :
    (New "N" cfgNoCT).headerOf envC DEBUG none = "T [DEBUG], N" ++ envC.callsite ++ " - " ∧
    (New "N" cfgNoCT).headerOf envC DEBUG none = "T [DEBUG], N f.go:1(fn) - " ∧
    (New "N" cfgNoCT).Dbg envC ["m"]
      = [.tinyCall 7 DEBUG ["T [DEBUG], N f.go:1(fn) - ", "m\n"]] ∧
    envC.callsite = " f.go:1(fn)" :=
  ⟨rfl, rfl, rfl, rfl⟩

/-- C4 amended: when `New` is called with a config whose `LevelWithTrace` is
its zero value (the option omitted), the captured call-trace threshold is
DEBUG — the most permissive — so every regular-level log call includes the
call-site info in its header. -/
theorem C4_amended (env : Env) (name : String) (config : LogConfig) (level : LogLevel)
    (h0 : config.LevelWithTrace = 0) (hreg : level < PANIC) :
    (New name config).hdrLevelct = 0 ∧
    (New name config).headerOf env level none
      = env.timeFmt (New name config).hdrTimefmt ++ " [" ++ logLevelString level ++ "], "
        ++ (New name config).hdrPfx ++ "" ++ env.callsite ++ " - " := by
  have hlc : (New name config).hdrLevelct = 0 := by
    rw [show (New name config).hdrLevelct = config.LevelWithTrace from rfl, h0]
  refine ⟨hlc, ?_⟩
  simp only [LoggerState.headerOf, getHeaderFromatter, hlc, traceIDString]
  rw [if_neg (Nat.not_le.mpr hreg), if_pos (Nat.zero_le level)]

/-- C4 amended witness: concrete omitted-option config and a DEBUG call. -/
theorem C4_amended_witness :
    (New "N" cfgNoCT).hdrLevelct = 0 ∧
    (New "N" cfgNoCT).headerOf envC DEBUG none
      = envC.timeFmt (New "N" cfgNoCT).hdrTimefmt ++ " [" ++ logLevelString DEBUG ++ "], "
        ++ (New "N" cfgNoCT).hdrPfx ++ "" ++ envC.callsite ++ " - " :=
  C4_amended envC "N" cfgNoCT DEBUG rfl (by decide)

/-- C6 counterexample: for a parent created by `New` with call-trace
threshold ERROR, the derived logger captures call-trace threshold DEBUG (the
parent `levelct` field, never set by `New`): at DEBUG the parent header has
no call-site entry while the derived header does, so the derived logger does
not start from a value-copy of the parent call-trace configuration. -/
theorem C6_counterexample :
    ((New "N" cfgCT3).Derive "S").hdrLevelct = DEBUG ∧
    (New "N" cfgCT3).hdrLevelct = ERROR ∧
    DEBUG ≠ ERROR ∧
    (New "N" cfgCT3).headerOf envC DEBUG none = "T [DEBUG], N - " ∧
    ((New "N" cfgCT3).Derive "S").headerOf envC DEBUG none
      = "T [DEBUG], N.S" ++ envC.callsite ++ " - " :=
  ⟨rfl, rfl, by decide, rfl, rfl⟩

/-- C6 amended: `Derive` extends the name with a dot and the suffix (name
unchanged for the empty suffix) and copies handler, level and time format;
its call-trace threshold is the parent `levelct` field — the value last
given to `SetCallTraceLevel`, DEBUG when never set — not necessarily the
`LevelWithTrace` the parent was created with.  On the logger heap, `Derive`
allocates a fresh logger, and mutating either logger through the setters
leaves the other record untouched. -/
theorem C6_amended (st : LoggerState) (p : String) (s : LoggerStore) (i : Nat)
    (v : LogLevel) (d : LoggerState) (hi : i < s.length) :
    (st.Derive p).pfx = (if p = "" then st.pfx else st.pfx ++ "." ++ p) ∧
    (st.Derive p).logHandler = st.logHandler ∧
    (st.Derive p).level = st.level ∧
    (st.Derive p).timefmt = st.timefmt ∧
    (st.Derive p).hdrTimefmt = st.timefmt ∧
    (st.Derive p).hdrPfx = (st.Derive p).pfx ∧
    (st.Derive p).hdrLevelct = st.levelct ∧
    (storeDerive s i p).2 ≠ i ∧
    (storeSetLevel (storeDerive s i p).1 (storeDerive s i p).2 v).getD i d
      = (storeDerive s i p).1.getD i d ∧
    (storeSetLevel (storeDerive s i p).1 i v).getD (storeDerive s i p).2 d
      = (storeDerive s i p).1.getD (storeDerive s i p).2 d ∧
    (storeSetCallTraceLevel (storeDerive s i p).1 (storeDerive s i p).2 v).getD i d
      = (storeDerive s i p).1.getD i d ∧
    (storeSetCallTraceLevel (storeDerive s i p).1 i v).getD (storeDerive s i p).2 d
      = (storeDerive s i p).1.getD (storeDerive s i p).2 d := by
  have hne : i ≠ s.length := Nat.ne_of_lt hi
  refine ⟨rfl, rfl, rfl, rfl, rfl, rfl, rfl, fun hmm => hne hmm.symm, ?_, ?_, ?_, ?_⟩ <;>
    simp [storeSetLevel, storeSetCallTraceLevel, storeDerive,
      List.getD_eq_getElem?_getD, List.getElem?_set_ne, hne, Ne.symm hne,
      List.getElem?_append_left hi]

/-- C6 amended witness: a one-logger heap; deriving allocates address 1 and
setting the level there leaves the parent record at address 0 unchanged. -/
theorem C6_amended_witness :
    (storeDerive [stDisabled] 0 "S").2 ≠ 0 ∧
    (storeSetLevel (storeDerive [stDisabled] 0 "S").1 (storeDerive [stDisabled] 0 "S").2
        WARN).getD 0 stDisabled
      = (storeDerive [stDisabled] 0 "S").1.getD 0 stDisabled := by
  have h := C6_amended stDisabled "S" [stDisabled] 0 WARN stDisabled (by decide)
  exact ⟨h.2.2.2.2.2.2.2.1, h.2.2.2.2.2.2.2.2.1⟩
